import Mathlib

/-!
A shallow embedding, in Lean 4, of the behaviourally relevant parts of the
Kodi add-on `plugin.video.flix` (files `lib/providers.py`, `lib/library.py`),
together with theorems about the provider broadcast, the replay cache and the
library store.

Python strings that get split and joined are modelled as `List Char`
(`Flix.Str`); plain path/name strings on the library side are modelled as
Lean `String`.  Host calls (dialogs, `setResolvedUrl`, `executebuiltin`,
`set_property`) are modelled as an explicit effect trace; host inputs
(provider replies, dialog answers, settings, TMDB metadata) are explicit
world parameters.
-/

namespace Flix

/-- A Python string, as a list of characters. -/
abbrev Str := List Char

/-- The two exception classes raised by `lib/providers.py`
(`NoProvidersError`, `ResolveTimeoutError`). -/
inductive PErr where
  | noProviders
  | resolveTimeout
deriving DecidableEq

/-- An external-subtitle list together with a playback url, as the Python
`dict` replies handled at `providers.py` lines 124-128, plus the other shapes
a Python value relevant to `play`/`check_replay` can take: `None`, a `str`,
or any other value (only its truthiness matters; a `dict` without the
`url`/`ext_subs` keys is likewise folded into `other`). -/
inductive PyPath where
  | none
  | str (s : Str)
  | dict (url : Str) (extSubs : List Str)
  | other (truthy : Bool)
deriving DecidableEq

/-- Python truthiness of the values represented by `PyPath`:
`None` and `""` are falsy, a `dict` with the two keys is non-empty hence
truthy. -/
def PyPath.truthy : PyPath → Bool
  | .none => false
  | .str s => !s.isEmpty
  | .dict _ _ => true
  | .other t => t

/-- A Kodi `ListItem` as produced by the code under scrutiny: either the
empty `ListItem()` of `providers.py` line 185, or `item.to_list_item(path=...,
ext_subs=...)` (lines 114 and 183). -/
inductive LItem where
  | empty
  | forItem (path : PyPath) (extSubs : Option (List Str))
deriving DecidableEq

/-- The host calls performed by `lib/providers.py`, recorded as a trace:
`send_to_providers`, `notification(translate n)`, `setResolvedUrl` and
`set_property`. -/
inductive Effect where
  | send (providers : List String) (method : String)
  | notify (stringId : Nat)
  | resolved (success : Bool) (li : LItem)
  | setProp (key value : Str)
deriving DecidableEq

/-- Modelled from the spec: `ProviderListener` (in `lib/api/flix/provider`,
which is not under `src/`) implements the timeout-bounded fan-in of the
"providers" component: it waits, bounded by the timeout, for each provider's
reply to the broadcast method, and its `data` holds, for each provider, the
reply that provider sent within the timeout, with providers that did not
reply in time absent.  `reply p = some r` means provider `p` replied `r`
within the timeout, `reply p = none` that it did not. -/
def listenerData {α : Type} (providers : List String) (reply : String → Option α) :
    List (String × α) :=
  providers.filterMap fun p => (reply p).map fun r => (p, r)

/-- Embeds `run_providers_method` (`providers.py` lines 46-52): raise
`NoProvidersError` when `get_providers()` is empty; otherwise broadcast the
method to all providers with `send_to_providers` inside a listener context
and return the listener's data.  The second component is the trace of
`send_to_providers` calls. -/
def run_providers_method {α : Type} (providers : List String)
    (reply : String → Option α) (method : String) :
    Except PErr (List (String × α)) × List Effect :=
  if providers.isEmpty then (.error .noProviders, [])
  else (.ok (listenerData providers reply), [.send providers method])

/-- Embeds `run_provider_method` (`providers.py` lines 55-61): a listener for
the single provider, a targeted `send_to_providers`, then
`listener.data[provider]`, turning the `KeyError` of a missing reply into
`ResolveTimeoutError`. -/
def run_provider_method {α : Type} (reply : String → Option α)
    (provider : String) (method : String) : Except PErr α × List Effect :=
  match (listenerData [provider] reply).lookup provider with
  | some r => (.ok r, [.send [provider] method])
  | Option.none => (.error .resolveTimeout, [.send [provider] method])

theorem listenerData_mem {α : Type} (providers : List String)
    (reply : String → Option α) (p : String) (r : α) :
    (p, r) ∈ listenerData providers reply ↔ p ∈ providers ∧ reply p = some r := by
  unfold listenerData
  rw [List.mem_filterMap]
  constructor
  · rintro ⟨q, hq, hmap⟩
    rcases Option.map_eq_some'.mp hmap with ⟨r', hr', heq⟩
    cases heq
    exact ⟨hq, hr'⟩
  · rintro ⟨hp, hr⟩
    exact ⟨p, hp, by rw [hr]; rfl⟩

theorem listenerData_single {α : Type} (reply : String → Option α) (p : String) :
    (listenerData [p] reply).lookup p = reply p := by
  unfold listenerData
  cases h : reply p <;> simp [List.filterMap, h, List.lookup]

/-- C2 (fan-out / fan-in of `run_providers_method`): with at least one
available provider, the method is broadcast to every provider returned by
`get_providers`, and the function returns the listener's data, which
contains a pair `(p, r)` exactly when provider `p` is one of the broadcast
targets and replied `r` within the timeout; providers that did not reply in
time are absent. -/
theorem run_providers_method_fanout_fanin {α : Type} (providers : List String)
    (reply : String → Option α) (method : String) (p : String) (r : α)
    (hne : providers ≠ []) :
    run_providers_method providers reply method
      = (.ok (listenerData providers reply), [.send providers method]) ∧
    ((p, r) ∈ listenerData providers reply ↔ p ∈ providers ∧ reply p = some r) := by
  refine ⟨?_, listenerData_mem providers reply p r⟩
  unfold run_providers_method
  rw [if_neg (by simpa using hne)]

/-- Witness for C2 at a concrete world: two providers, one replying in time
and one timing out. -/
theorem run_providers_method_fanout_fanin_witness :
    run_providers_method ["a", "b"]
        (fun p => if p = "a" then some 1 else Option.none) "search"
      = (.ok (listenerData ["a", "b"]
          (fun p => if p = "a" then some 1 else Option.none)),
         [.send ["a", "b"] "search"]) ∧
    (("b", 1) ∈ listenerData ["a", "b"]
        (fun p => if p = "a" then some 1 else Option.none) ↔
      "b" ∈ ["a", "b"] ∧
        (if "b" = "a" then some 1 else Option.none) = some 1) :=
  run_providers_method_fanout_fanin ["a", "b"]
    (fun p => if p = "a" then some 1 else Option.none) "search" "b" 1 (by decide)

/-- Modelled from the spec: a provider's raw reply to a search broadcast is
an arbitrary host value; `get_providers_results` only observes whether it is
a Python `list`/`tuple`, and iterates its entries (kept abstract as `ρ`). -/
inductive Raw (ρ : Type) where
  | seq (entries : List ρ)
  | nonseq
deriving DecidableEq

/-- Modelled from the spec: a parsed `ProviderResult` (class in
`lib/api/flix/provider`, not under `src/`), restricted to the fields the
code under `src/` reads: `url` (a Python string, `""` falsy),
the truthiness of `provider_data`, and the external-subtitle list
`ext_subs`. -/
structure ProviderResult where
  url : Str
  providerData : Bool
  extSubs : List Str
deriving DecidableEq

/-- The test on `providers.py` line 77: a parsed result is kept when
`result.url or result.provider_data` is truthy. -/
def keepResult (p : String) (r : ProviderResult) :
    Option (String × ProviderResult) :=
  if !r.url.isEmpty || r.providerData then some (p, r) else Option.none

/-- Embeds the filtering loops of `get_providers_results` (`providers.py`
lines 64-79), over already-received listener data: skip a provider whose
reply is not a `list`/`tuple`; for each entry, try to parse it as a
`ProviderResult` (`parse e = none` models the constructor raising, which is
caught and logged), and append `(provider, result)` to the accumulated
`results` when the parse succeeded and the `keepResult` test passes. -/
def gatherInner {ρ : Type} (parse : ρ → Option ProviderResult) (p : String)
    (acc : List (String × ProviderResult)) (entries : List ρ) :
    List (String × ProviderResult) :=
  entries.foldl (fun acc2 e => acc2 ++ ((parse e).bind (keepResult p)).toList) acc

def gather_results {ρ : Type} (parse : ρ → Option ProviderResult)
    (data : List (String × Raw ρ)) : List (String × ProviderResult) :=
  data.foldl (fun acc pr =>
    match pr.2 with
    | .nonseq => acc
    | .seq entries => gatherInner parse pr.1 acc entries) []

/-- The claim's own description of result gathering, stated from its words
for comparison with `gather_results`: exactly the `(provider, result)` pairs
whose raw result sits inside a `list`/`tuple`, parses as a `ProviderResult`
without raising, and has a non-empty url or non-empty provider data, in the
order providers' results are iterated. -/
def gather_results_spec {ρ : Type} (parse : ρ → Option ProviderResult)
    (data : List (String × Raw ρ)) : List (String × ProviderResult) :=
  data.flatMap fun pr =>
    match pr.2 with
    | .nonseq => []
    | .seq entries => entries.filterMap fun e => (parse e).bind (keepResult pr.1)

theorem foldl_append_filterMap {α β : Type} (f : α → Option β) (l : List α)
    (acc : List β) :
    l.foldl (fun acc2 e => acc2 ++ (f e).toList) acc = acc ++ l.filterMap f := by
  induction l generalizing acc with
  | nil => simp
  | cons e rest ih =>
    rw [List.foldl_cons, List.filterMap_cons]
    cases h : f e with
    | none => simp only [h, Option.toList_none, List.append_nil]; rw [ih]
    | some x => simp only [h, Option.toList_some]; rw [ih]; simp

theorem gatherInner_eq {ρ : Type} (parse : ρ → Option ProviderResult)
    (p : String) (acc : List (String × ProviderResult)) (entries : List ρ) :
    gatherInner parse p acc entries
      = acc ++ entries.filterMap fun e => (parse e).bind (keepResult p) := by
  unfold gatherInner
  exact foldl_append_filterMap (fun e => (parse e).bind (keepResult p)) entries acc

theorem gather_results_acc {ρ : Type} (parse : ρ → Option ProviderResult)
    (data : List (String × Raw ρ)) (acc : List (String × ProviderResult)) :
    data.foldl (fun acc pr =>
      match pr.2 with
      | .nonseq => acc
      | .seq entries => gatherInner parse pr.1 acc entries) acc
      = acc ++ gather_results_spec parse data := by
  induction data generalizing acc with
  | nil => simp [gather_results_spec]
  | cons pr rest ih =>
    obtain ⟨p, raw⟩ := pr
    rw [List.foldl_cons]
    cases raw with
    | nonseq =>
      rw [ih]
      simp [gather_results_spec]
    | seq entries =>
      simp only
      rw [gatherInner_eq, ih]
      simp [gather_results_spec]

/-- C9: `get_providers_results` returns exactly the `(provider, result)`
pairs whose raw result sits inside a `list`/`tuple`, parses as a
`ProviderResult` without raising, and has a non-empty url or non-empty
provider data; malformed replies are skipped without raising, and the
iteration order of providers' results is preserved. -/
theorem gather_results_eq_spec {ρ : Type} (parse : ρ → Option ProviderResult)
    (data : List (String × Raw ρ)) :
    gather_results parse data = gather_results_spec parse data := by
  unfold gather_results
  simpa using gather_results_acc parse data []

/-- Embeds `get_providers_results` (`providers.py` lines 64-79) end to end:
run the broadcast with `run_providers_method`, then filter the received data
with the loops embedded in `gather_results`.  `NoProvidersError` propagates. -/
def get_providers_results {ρ : Type} (providers : List String)
    (reply : String → Option (Raw ρ)) (parse : ρ → Option ProviderResult)
    (method : String) :
    Except PErr (List (String × ProviderResult)) × List Effect :=
  match run_providers_method providers reply method with
  | (.error e, effs) => (.error e, effs)
  | (.ok data, effs) => (.ok (gather_results parse data), effs)

/-- The host inputs `play` consults: the available providers, their replies
to the search broadcast (within `get_providers_timeout`), the
`ProviderResult` parser, the targeted `resolve` replies (within
`get_resolve_timeout`), the `auto_choose_media` setting and the selection
dialog's answer. -/
structure PlayWorld (ρ : Type) where
  providers : List String
  searchReply : String → Option (Raw ρ)
  parse : ρ → Option ProviderResult
  resolveReply : String → Option PyPath
  autoChoose : Bool
  dialogSelected : Int

/-- The selection made in `play` lines 147-157: index 0 when
`auto_choose_media()` is on, otherwise the selection dialog's answer
(negative when the user cancelled). -/
def PlayWorld.selected {ρ : Type} (w : PlayWorld ρ) : Int :=
  if w.autoChoose then 0 else w.dialogSelected

/-- Outcome of a `play` invocation: the Python return value of the wrapped
function, or an unhandled Python exception (`crash`). -/
inductive POut where
  | ok (path : PyPath)
  | crash
deriving DecidableEq

/-- Embeds `play` lines 180-186: emit the final `setResolvedUrl` — success
with `item.to_list_item(path=path, ext_subs=ext_subs if ext_subs else None)`
when `path` is truthy, failure with an empty `ListItem()` otherwise — and
return `path`. -/
def finishPlay (path : PyPath) (extSubs : List Str) (effs : List Effect) :
    POut × List Effect :=
  if path.truthy then
    (.ok path, effs ++ [.resolved true (.forItem path
      (if extSubs.isEmpty then Option.none else some extSubs))])
  else
    (.ok path, effs ++ [.resolved false .empty])

/-- Embeds the body of `play` (`providers.py` lines 136-186), i.e. the
function wrapped by `check_replay`.  `NoProvidersError` is caught and turns
`results` into Python `None` (notification 30146); an empty result list
notifies 30112; a negative dialog selection leaves the path unset; an
out-of-range selection models the `IndexError` of `results[selected]`
(`crash`); a selected result with a falsy url triggers the targeted
`resolve` call, whose `ResolveTimeoutError` is caught (notification 30129)
leaving the path the falsy url. -/
def playBody {ρ : Type} (w : PlayWorld ρ) (method : String) :
    POut × List Effect :=
  match get_providers_results w.providers w.searchReply w.parse method with
  | (.error _, eff0) => finishPlay .none [] (eff0 ++ [.notify 30146])
  | (.ok results, eff0) =>
    if results.isEmpty then finishPlay .none [] (eff0 ++ [.notify 30112])
    else
      if w.selected < 0 then finishPlay .none [] eff0
      else
        match results[w.selected.toNat]? with
        | Option.none => (.crash, eff0)
        | some pres =>
          if pres.2.url.isEmpty then
            match run_provider_method w.resolveReply pres.1 "resolve" with
            | (.ok p, eff1) => finishPlay p pres.2.extSubs (eff0 ++ eff1)
            | (.error _, eff1) =>
              finishPlay (.str []) pres.2.extSubs (eff0 ++ eff1 ++ [.notify 30129])
          else finishPlay (.str pres.2.url) pres.2.extSubs eff0

/-- C3: `run_provider_method` raises `ResolveTimeoutError` exactly when the
targeted provider's reply is absent from the listener's data after the
timeout-bounded wait, and returns the provider's reply when present; and
`play` catches that error when resolving a selected result — the outcome is
a normal return with the playback path left falsy and a failed
`setResolvedUrl`, not a propagated exception. -/
theorem run_provider_method_timeout {ρ : Type} (reply : String → Option PyPath)
    (provider method : String) (r : PyPath) (w : PlayWorld ρ)
    (results : List (String × ProviderResult)) (eff0 : List Effect)
    (pr : ProviderResult)
    (hres : get_providers_results w.providers w.searchReply w.parse method
      = (.ok results, eff0))
    (hsel : w.selected = 0)
    (hfirst : results.head? = some (provider, pr))
    (hurl : pr.url = [])
    (htimeout : w.resolveReply provider = Option.none) :
    ((run_provider_method reply provider method).1 = .error .resolveTimeout ↔
      (listenerData [provider] reply).lookup provider = Option.none) ∧
    (reply provider = some r →
      (run_provider_method reply provider method).1 = .ok r) ∧
    playBody w method
      = (.ok (.str []),
         eff0 ++ [.send [provider] "resolve", .notify 30129,
           .resolved false .empty]) := by
  refine ⟨?_, ?_, ?_⟩
  · unfold run_provider_method
    rw [listenerData_single]
    cases h : reply provider <;> simp [listenerData_single, h]
  · intro h
    unfold run_provider_method
    rw [listenerData_single, h]
  · have hne : results ≠ [] := by
      intro h; rw [h] at hfirst; simp at hfirst
    have hget : results[(0 : Int).toNat]? = some (provider, pr) := by
      rwa [Int.toNat_zero, ← List.head?_eq_getElem?]
    unfold playBody
    rw [hres]
    simp only [List.isEmpty_iff, hne, if_false, hsel, hget]
    rw [if_neg (by norm_num)]
    simp only [hurl, List.isEmpty_nil, if_true]
    unfold run_provider_method
    rw [listenerData_single, htimeout]
    simp [finishPlay, PyPath.truthy, List.append_assoc]

/-- Witness for C3: one provider whose search reply carries a result with an
empty url and truthy provider data, and whose `resolve` reply never comes. -/
theorem run_provider_method_timeout_witness :
    (((run_provider_method (fun _ => (Option.none : Option PyPath)) "p" "m").1
        = Except.error .resolveTimeout) ↔
      (listenerData ["p"] (fun _ => (Option.none : Option PyPath))).lookup "p"
        = Option.none) ∧
    ((fun _ => (Option.none : Option PyPath)) "p" = some (.str ['x']) →
      (run_provider_method (fun _ => (Option.none : Option PyPath)) "p" "m").1
        = .ok (.str ['x'])) ∧
    playBody
      { providers := ["p"]
        searchReply := fun _ => some (.seq [()])
        parse := fun _ => some ⟨[], true, []⟩
        resolveReply := fun _ => Option.none
        autoChoose := true
        dialogSelected := 0 }
      "m"
      = (.ok (.str []),
         [.send ["p"] "m", .send ["p"] "resolve", .notify 30129,
           .resolved false .empty]) :=
  run_provider_method_timeout (fun _ => Option.none) "p" "m" (.str ['x'])
    { providers := ["p"]
      searchReply := fun _ => some (.seq [()])
      parse := fun _ => some ⟨[], true, []⟩
      resolveReply := fun _ => Option.none
      autoChoose := true
      dialogSelected := 0 }
    [("p", ⟨[], true, []⟩)] [.send ["p"] "m"] ⟨[], true, []⟩
    (by rfl) (by rfl) (by rfl) (by rfl) (by rfl)

/-- C4: `run_providers_method` raises `NoProvidersError` exactly when
`get_providers` returns no providers, in which case nothing is broadcast;
and `play` converts that error into notification 30146 and a failed
`setResolvedUrl` (success `False`, empty list item) instead of letting it
propagate. -/
theorem no_providers_error {α ρ : Type} (providers : List String)
    (reply : String → Option α) (method : String) (w : PlayWorld ρ)
    (hempty : w.providers = []) :
    ((run_providers_method providers reply method).1
        = .error .noProviders ↔ providers = []) ∧
    (providers = [] → (run_providers_method providers reply method).2 = []) ∧
    playBody w method = (.ok .none, [.notify 30146, .resolved false .empty]) := by
  refine ⟨?_, ?_, ?_⟩
  · unfold run_providers_method
    cases providers <;> simp
  · intro h
    subst h
    rfl
  · unfold playBody get_providers_results run_providers_method
    rw [hempty]
    simp [finishPlay, PyPath.truthy]

/-- Witness for C4 at the empty provider list. -/
theorem no_providers_error_witness :
    (((run_providers_method ([] : List String)
        (fun _ => (Option.none : Option Nat)) "m").1
      = Except.error .noProviders) ↔ ([] : List String) = []) ∧
    (([] : List String) = [] →
      (run_providers_method ([] : List String)
        (fun _ => (Option.none : Option Nat)) "m").2 = []) ∧
    playBody
      { providers := ([] : List String)
        searchReply := fun _ => some (Raw.seq ([] : List Unit))
        parse := fun _ => some ⟨[], true, []⟩
        resolveReply := fun _ => Option.none
        autoChoose := true
        dialogSelected := 0 }
      "m"
      = (.ok .none, [.notify 30146, .resolved false .empty]) :=
  no_providers_error ([] : List String) (fun _ => (Option.none : Option Nat)) "m"
    { providers := ([] : List String)
      searchReply := fun _ => some (Raw.seq ([] : List Unit))
      parse := fun _ => some ⟨[], true, []⟩
      resolveReply := fun _ => Option.none
      autoChoose := true
      dialogSelected := 0 }
    (by rfl)

/-- The separator of the replay cache (`check_replay(func, sep="@")`,
`providers.py` line 83). -/
def SEP : Char := '@'

/-- Embeds the `set_property` value built at `providers.py` lines 124-130:
for a `dict` path, `current_id + sep + path['url']`, extended with
`sep + "^".join(path['ext_subs'])` when the subtitle list is truthy; for a
`str` path, `current_id + sep + path`; any other value is not stored. -/
def storedValue (currentId : Str) (path : PyPath) : Option Str :=
  match path with
  | .dict url extSubs =>
    if extSubs.isEmpty then some (currentId ++ [SEP] ++ url)
    else some (currentId ++ [SEP] ++ url ++ [SEP] ++ List.intercalate ['^'] extSubs)
  | .str s => some (currentId ++ [SEP] ++ s)
  | _ => Option.none

/-- What the tuple unpacking at `providers.py` lines 100-108 produces from a
cached value: `noValue` when the property is empty (all three variables
`None`), two or three split parts, or the `ValueError` a mismatched Python
unpacking raises (a single part, or more than three). -/
inductive Parsed where
  | noValue
  | two (lastId path : Str)
  | three (lastId path subs : Str)
  | valueError
deriving DecidableEq

/-- Embeds `providers.py` lines 100-108: split the cached value on the
separator; when the value is truthy, unpack into three variables if there
are more than two parts, otherwise into two. -/
def parseValue (value : Str) : Parsed :=
  let parts := value.splitOn SEP
  if value.isEmpty then .noValue
  else if 2 < parts.length then
    match parts with
    | [a, b, c] => .three a b c
    | _ => .valueError
  else
    match parts with
    | [a, b] => .two a b
    | _ => .valueError

/-- The `last_id` variable of the wrapper (`None` when no value). -/
def Parsed.lastId : Parsed → Option Str
  | .two a _ => some a
  | .three a _ _ => some a
  | _ => Option.none

/-- The `path` variable of the wrapper (`None` when no value). -/
def Parsed.path : Parsed → Option Str
  | .two _ b => some b
  | .three _ b _ => some b
  | _ => Option.none

/-- The subtitles handed to `to_list_item` on replay (`providers.py` line
114): `saved_ext_subs.split("^") if saved_ext_subs else None`. -/
def Parsed.extSubs : Parsed → Option (List Str)
  | .three _ _ s => if s.isEmpty then Option.none else some (s.splitOn '^')
  | _ => Option.none

/-- The triple the replay branch recovers from a cached value:
last id, playback path and external-subtitle list. -/
def recovered (v : Str) : Option Str × Option Str × Option (List Str) :=
  ((parseValue v).lastId, (parseValue v).path, (parseValue v).extSubs)

/-- The window-property key `"flix:last_played:" + item.__class__.__name__`
(`providers.py` line 89). -/
def lastPlayedKey (className : Str) : Str :=
  "flix:last_played:".toList ++ className

/-- The host inputs of the `check_replay` wrapper on top of those of `play`:
the `save_last_result` setting, the window properties (the empty string for
an unset property) and the user's answer to the replay yes/no dialog. -/
structure ReplayWorld (ρ : Type) where
  play : PlayWorld ρ
  saveLastResult : Bool
  props : Str → Str
  yesno : Bool

/-- Embeds the `wrapper` closure of `check_replay` (`providers.py` lines
83-133) applied to the `play` body: when `save_last_result` is off, run
`play` directly; otherwise read and split the cached property (a mismatched
unpacking raises `ValueError`, modelled as `crash`); when the cached id
matches the current item and the user accepts the replay dialog, resolve to
the cached path and subtitles; otherwise run `play` and store its returned
path under the key. -/
def play {ρ : Type} (w : ReplayWorld ρ) (currentId className : Str)
    (method : String) : POut × List Effect :=
  if !w.saveLastResult then playBody w.play method
  else if parseValue (w.props (lastPlayedKey className)) = .valueError then
    (.crash, [])
  else if (parseValue (w.props (lastPlayedKey className))).lastId
      = some currentId ∧ w.yesno = true then
    (.ok (.str ((parseValue (w.props (lastPlayedKey className))).path.getD [])),
     [.resolved true
       (.forItem
         (.str ((parseValue (w.props (lastPlayedKey className))).path.getD []))
         ((parseValue (w.props (lastPlayedKey className))).extSubs))])
  else
    match playBody w.play method with
    | (.crash, effs) => (.crash, effs)
    | (.ok path, effs) =>
      match storedValue currentId path with
      | some v => (.ok path, effs ++ [.setProp (lastPlayedKey className) v])
      | Option.none => (.ok path, effs)

theorem mem_intercalate_single {x c : Char} {ls : List Str}
    (h : x ∈ List.intercalate [c] ls) : x = c ∨ ∃ l ∈ ls, x ∈ l := by
  induction ls with
  | nil => simp [List.intercalate] at h
  | cons a rest ih =>
    cases rest with
    | nil =>
      simp [List.intercalate] at h
      exact Or.inr ⟨a, by simp, h⟩
    | cons b rs =>
      have hstep : List.intercalate [c] (a :: b :: rs)
          = a ++ c :: List.intercalate [c] (b :: rs) := by
        simp [List.intercalate, List.intersperse]
      rw [hstep] at h
      rcases List.mem_append.mp h with ha | hx
      · exact Or.inr ⟨a, by simp, ha⟩
      · rcases List.mem_cons.mp hx with hc | hrest
        · exact Or.inl hc
        · rcases ih hrest with hc | ⟨l, hl, hxl⟩
          · exact Or.inl hc
          · exact Or.inr ⟨l, by simp [hl], hxl⟩

theorem intercalate_single_eq_nil {c : Char} {ls : List Str}
    (h : List.intercalate [c] ls = []) : ls = [] ∨ ls = [[]] := by
  match ls with
  | [] => exact Or.inl rfl
  | [a] =>
    simp [List.intercalate] at h
    exact Or.inr (by rw [h])
  | a :: b :: rs =>
    exfalso
    have : List.intercalate [c] (a :: b :: rs)
        = a ++ c :: List.intercalate [c] (b :: rs) := by
      simp [List.intercalate, List.intersperse]
    rw [this] at h
    simp at h

theorem parseValue_two (a b : Str) (ha : SEP ∉ a) (hb : SEP ∉ b) :
    parseValue (a ++ SEP :: b) = .two a b := by
  have hform : a ++ SEP :: b = [SEP].intercalate [a, b] := by
    simp [List.intercalate, List.intersperse]
  have hsplit : (a ++ SEP :: b).splitOn SEP = [a, b] := by
    rw [hform]
    exact List.splitOn_intercalate [a, b] SEP (by simp [ha, hb]) (by simp)
  have hne : ¬(a ++ SEP :: b).isEmpty := by
    simp
  unfold parseValue
  rw [hsplit]
  simp [hne]

theorem parseValue_three (a b c : Str) (ha : SEP ∉ a) (hb : SEP ∉ b)
    (hc : SEP ∉ c) :
    parseValue (a ++ SEP :: (b ++ SEP :: c)) = .three a b c := by
  have hform : a ++ SEP :: (b ++ SEP :: c) = [SEP].intercalate [a, b, c] := by
    simp [List.intercalate, List.intersperse]
  have hsplit : (a ++ SEP :: (b ++ SEP :: c)).splitOn SEP = [a, b, c] := by
    rw [hform]
    exact List.splitOn_intercalate [a, b, c] SEP (by simp [ha, hb, hc]) (by simp)
  have hne : ¬(a ++ SEP :: (b ++ SEP :: c)).isEmpty := by
    simp
  unfold parseValue
  rw [hsplit]
  simp [hne]

/-- C1 (corrected): the split-after-join round-trip of the replay cache
holds provided the item id and the url contain no separator `'@'`, no
subtitle contains `'@'` or the subtitle joiner `'^'`, and the subtitle list
is not the single empty string: the stored value splits back into the same
id, the same playback path and (for a `dict` path) the same subtitle list
(`none` standing for an absent/empty one). -/
theorem replay_roundtrip (currentId url : Str) (subs : List Str)
    (hid : SEP ∉ currentId) (hurl : SEP ∉ url)
    (hsubs : ∀ s ∈ subs, SEP ∉ s ∧ '^' ∉ s) (hne : subs ≠ [[]]) :
    ((storedValue currentId (PyPath.str url)).map recovered
      = some (some currentId, some url, Option.none)) ∧
    ((storedValue currentId (PyPath.dict url subs)).map recovered
      = some (some currentId, some url,
          if subs.isEmpty then Option.none else some subs)) := by
  have hcons : currentId ++ [SEP] ++ url = currentId ++ SEP :: url := by simp
  constructor
  · simp only [storedValue]
    have h2 := parseValue_two currentId url hid hurl
    rw [hcons]
    simp [recovered, h2, Parsed.lastId, Parsed.path, Parsed.extSubs]
  · simp only [storedValue]
    by_cases hE : subs.isEmpty
    · have h2 := parseValue_two currentId url hid hurl
      rw [if_pos hE, hcons]
      simp [recovered, h2, hE, Parsed.lastId, Parsed.path, Parsed.extSubs]
    · have hsne : subs ≠ [] := by
        intro h; rw [h] at hE; simp at hE
      have hjoin_ne : List.intercalate ['^'] subs ≠ [] := by
        intro h
        rcases intercalate_single_eq_nil h with h1 | h1
        · exact hsne h1
        · exact hne h1
      have hjoin_nosep : SEP ∉ List.intercalate ['^'] subs := by
        intro h
        rcases mem_intercalate_single h with h1 | ⟨l, hl, hxl⟩
        · exact absurd h1 (by decide)
        · exact (hsubs l hl).1 hxl
      have h3 := parseValue_three currentId url (List.intercalate ['^'] subs)
        hid hurl hjoin_nosep
      have hresplit : (List.intercalate ['^'] subs).splitOn '^' = subs :=
        List.splitOn_intercalate subs '^' (fun l hl => (hsubs l hl).2) hsne
      rw [if_neg (by simpa using hE)]
      rw [show currentId ++ [SEP] ++ url ++ [SEP] ++ List.intercalate ['^'] subs
          = currentId ++ SEP :: (url ++ SEP :: List.intercalate ['^'] subs) by simp]
      simp [recovered, h3, hE, Parsed.lastId, Parsed.path, Parsed.extSubs,
        hjoin_ne, hresplit, List.isEmpty_iff]

/-- Witness for the corrected C1 at a concrete id, url and subtitle list. -/
theorem replay_roundtrip_witness :
    ((storedValue ['i'] (PyPath.str ['u', 'r'])).map recovered
      = some (some ['i'], some ['u', 'r'], Option.none)) ∧
    ((storedValue ['i'] (PyPath.dict ['u', 'r'] [['s'], ['t']])).map recovered
      = some (some ['i'], some ['u', 'r'],
          if ([['s'], ['t']] : List Str).isEmpty then Option.none
          else some [['s'], ['t']])) :=
  replay_roundtrip ['i'] ['u', 'r'] [['s'], ['t']] (by decide) (by decide)
    (by decide) (by decide)

/-- C1 (counterexample): for the stored url `"a@b"` — which contains the
separator — the cached value `"i@a@b"` splits back into path `"a"` and a
subtitle list `["b"]`, not the original url and absent subtitles. -/
theorem replay_roundtrip_counterexample :
    storedValue ['i'] (PyPath.str ['a', '@', 'b'])
      = some ['i', '@', 'a', '@', 'b'] ∧
    recovered ['i', '@', 'a', '@', 'b']
      = (some ['i'], some ['a'], some [['b']]) ∧
    (some ['a'] : Option Str) ≠ some ['a', '@', 'b'] := by
  refine ⟨rfl, ?_, by decide⟩
  decide

/-- Recognizes a `setResolvedUrl` call in the effect trace. -/
def Effect.isResolved : Effect → Bool
  | .resolved _ _ => true
  | _ => false

/-- Recognizes a successful `setResolvedUrl` whose list item is built for
the playback value `path`. -/
def Effect.isResolvedTrueFor (path : PyPath) : Effect → Bool
  | .resolved true (.forItem q _) => q = path
  | _ => false

/-- Recognizes a failed `setResolvedUrl` with an empty `ListItem()`. -/
def Effect.isResolvedFalseEmpty : Effect → Bool
  | .resolved false .empty => true
  | _ => false

/-- Whether a `play` invocation takes the replay branch of `check_replay`
(line 113): the setting is on, the cached id matches the current item, and
the user accepts the yes/no dialog. -/
def replayTaken {ρ : Type} (w : ReplayWorld ρ) (currentId className : Str) :
    Bool :=
  w.saveLastResult &&
    decide ((parseValue (w.props (lastPlayedKey className))).lastId
      = some currentId) &&
    w.yesno

theorem rpm_effects {α : Type} (reply : String → Option α)
    (provider method : String) :
    (run_provider_method reply provider method).2 = [.send [provider] method] := by
  unfold run_provider_method
  cases (listenerData [provider] reply).lookup provider <;> rfl

theorem gpr_effects {ρ : Type} (providers : List String)
    (reply : String → Option (Raw ρ)) (parse : ρ → Option ProviderResult)
    (method : String) :
    (get_providers_results providers reply parse method).2 = []
    ∨ (get_providers_results providers reply parse method).2
        = [.send providers method] := by
  unfold get_providers_results run_providers_method
  by_cases h : providers.isEmpty <;> simp [h]

theorem gpr_countP {ρ : Type} (providers : List String)
    (reply : String → Option (Raw ρ)) (parse : ρ → Option ProviderResult)
    (method : String) (pr : Effect → Bool)
    (hsend : ∀ ps m, pr (.send ps m) = false) :
    ((get_providers_results providers reply parse method).2).countP pr = 0 := by
  rcases gpr_effects providers reply parse method with h | h <;>
    rw [h] <;> simp [List.countP_cons, hsend]

theorem finishPlay_spec (p : PyPath) (es : List Str) (pre : List Effect)
    (path : PyPath) (effs : List Effect)
    (h : finishPlay p es pre = (.ok path, effs))
    (h1 : pre.countP Effect.isResolved = 0)
    (h2 : pre.countP (Effect.isResolvedTrueFor p) = 0)
    (h3 : pre.countP Effect.isResolvedFalseEmpty = 0) :
    path = p ∧ effs.countP Effect.isResolved = 1 ∧
    (if path.truthy then effs.countP (Effect.isResolvedTrueFor path) = 1
     else effs.countP Effect.isResolvedFalseEmpty = 1) := by
  unfold finishPlay at h
  by_cases ht : p.truthy
  · rw [if_pos ht] at h
    injection h with hA hB
    injection hA with hA
    subst hA
    subst hB
    refine ⟨rfl, ?_, ?_⟩
    · simp [List.countP_append, List.countP_cons, h1, Effect.isResolved]
    · rw [if_pos ht]
      simp [List.countP_append, List.countP_cons, h2, Effect.isResolvedTrueFor]
  · rw [if_neg ht] at h
    injection h with hA hB
    injection hA with hA
    subst hA
    subst hB
    refine ⟨rfl, ?_, ?_⟩
    · simp [List.countP_append, List.countP_cons, h1, Effect.isResolved]
    · rw [if_neg ht]
      simp [List.countP_append, List.countP_cons, h3, Effect.isResolvedFalseEmpty]

theorem isResolved_impl (x : Effect) (h : Effect.isResolved x = false) :
    (∀ p, Effect.isResolvedTrueFor p x = false) ∧
    Effect.isResolvedFalseEmpty x = false := by
  cases x <;>
    simp [Effect.isResolved, Effect.isResolvedTrueFor,
      Effect.isResolvedFalseEmpty] at h ⊢

theorem finishPlay_spec_sends (p : PyPath) (es : List Str) (pre : List Effect)
    (path : PyPath) (effs : List Effect)
    (h : finishPlay p es pre = (.ok path, effs))
    (hpre : ∀ x ∈ pre, Effect.isResolved x = false) :
    path = p ∧ effs.countP Effect.isResolved = 1 ∧
    (if path.truthy then effs.countP (Effect.isResolvedTrueFor path) = 1
     else effs.countP Effect.isResolvedFalseEmpty = 1) := by
  refine finishPlay_spec p es pre path effs h ?_ ?_ ?_
  · exact List.countP_eq_zero.mpr (by intro a ha; simp [hpre a ha])
  · exact List.countP_eq_zero.mpr
      (by intro a ha; simp [(isResolved_impl a (hpre a ha)).1 p])
  · exact List.countP_eq_zero.mpr
      (by intro a ha; simp [(isResolved_impl a (hpre a ha)).2])

theorem gpr_sends {ρ : Type} (providers : List String)
    (reply : String → Option (Raw ρ)) (parse : ρ → Option ProviderResult)
    (method : String) :
    ∀ x ∈ (get_providers_results providers reply parse method).2,
      Effect.isResolved x = false := by
  rcases gpr_effects providers reply parse method with h | h <;> rw [h]
  · intro x hx
    simp at hx
  · intro x hx
    rw [List.mem_singleton.mp hx]
    rfl

theorem sends_append {l1 l2 : List Effect}
    (h1 : ∀ x ∈ l1, Effect.isResolved x = false)
    (h2 : ∀ x ∈ l2, Effect.isResolved x = false) :
    ∀ x ∈ l1 ++ l2, Effect.isResolved x = false := by
  intro x hx
  rcases List.mem_append.mp hx with hm | hm
  · exact h1 x hm
  · exact h2 x hm

theorem sends_singleton (e : Effect) (he : Effect.isResolved e = false) :
    ∀ x ∈ [e], Effect.isResolved x = false := by
  intro x hx
  rw [List.mem_singleton.mp hx]
  exact he

theorem playBody_resolved {ρ : Type} (w : PlayWorld ρ) (method : String)
    (path : PyPath) (effs : List Effect)
    (h : playBody w method = (.ok path, effs)) :
    effs.countP Effect.isResolved = 1 ∧
    (if path.truthy then effs.countP (Effect.isResolvedTrueFor path) = 1
     else effs.countP Effect.isResolvedFalseEmpty = 1) := by
  have c0 : ∀ x ∈ (get_providers_results w.providers w.searchReply w.parse
      method).2, Effect.isResolved x = false :=
    gpr_sends w.providers w.searchReply w.parse method
  unfold playBody at h
  split at h
  case _ e eff0 heq =>
    have hE : ∀ x ∈ eff0, Effect.isResolved x = false := by
      rw [heq] at c0
      simpa using c0
    rcases finishPlay_spec_sends _ _ _ _ _ h
      (sends_append hE (sends_singleton _ rfl)) with ⟨hp, h1, h2⟩
    subst hp
    exact ⟨h1, h2⟩
  case _ results eff0 heq =>
    have hE : ∀ x ∈ eff0, Effect.isResolved x = false := by
      rw [heq] at c0
      simpa using c0
    by_cases hre : results.isEmpty
    · rw [if_pos hre] at h
      rcases finishPlay_spec_sends _ _ _ _ _ h
        (sends_append hE (sends_singleton _ rfl)) with ⟨hp, h1, h2⟩
      subst hp
      exact ⟨h1, h2⟩
    · rw [if_neg hre] at h
      by_cases hsel : w.selected < 0
      · rw [if_pos hsel] at h
        rcases finishPlay_spec_sends _ _ _ _ _ h hE with ⟨hp, h1, h2⟩
        subst hp
        exact ⟨h1, h2⟩
      · rw [if_neg hsel] at h
        split at h
        case _ hidx => simp at h
        case _ pres hidx =>
          by_cases hurl : pres.2.url.isEmpty
          · rw [if_pos hurl] at h
            split at h
            case _ p eff1 heq2 =>
              have heff1 : eff1 = [.send [pres.1] "resolve"] := by
                have hr := rpm_effects w.resolveReply pres.1 "resolve"
                rw [heq2] at hr
                simpa using hr
              subst heff1
              rcases finishPlay_spec_sends _ _ _ _ _ h
                (sends_append hE (sends_singleton _ rfl)) with ⟨hp, h1, h2⟩
              subst hp
              exact ⟨h1, h2⟩
            case _ e eff1 heq2 =>
              have heff1 : eff1 = [.send [pres.1] "resolve"] := by
                have hr := rpm_effects w.resolveReply pres.1 "resolve"
                rw [heq2] at hr
                simpa using hr
              subst heff1
              rcases finishPlay_spec_sends _ _ _ _ _ h
                (sends_append (sends_append hE (sends_singleton _ rfl))
                  (sends_singleton _ rfl)) with ⟨hp, h1, h2⟩
              subst hp
              exact ⟨h1, h2⟩
          · rw [if_neg hurl] at h
            rcases finishPlay_spec_sends _ _ _ _ _ h hE with ⟨hp, h1, h2⟩
            subst hp
            exact ⟨h1, h2⟩

/-- C10: every invocation of `play` through its `check_replay` wrapper that
completes without an exception performs exactly one `setResolvedUrl` call:
a successful one with a list item built for the played path exactly when a
playback path was obtained — from the replay cache (the replay branch was
taken) or from a provider (the returned path is truthy) — and a failed one
with an empty `ListItem()` otherwise. -/
theorem play_resolved_once {ρ : Type} (w : ReplayWorld ρ)
    (currentId className : Str) (method : String) (path : PyPath)
    (effs : List Effect)
    (h : play w currentId className method = (.ok path, effs)) :
    effs.countP Effect.isResolved = 1 ∧
    (if path.truthy || replayTaken w currentId className
     then effs.countP (Effect.isResolvedTrueFor path) = 1
     else effs.countP Effect.isResolvedFalseEmpty = 1) := by
  unfold play at h
  cases hs : w.saveLastResult with
  | false =>
    rw [hs] at h
    rw [if_pos (by simp)] at h
    have hb := playBody_resolved w.play method path effs h
    simpa [replayTaken, hs] using hb
  | true =>
    rw [hs] at h
    rw [if_neg (by simp)] at h
    by_cases hve : parseValue (w.props (lastPlayedKey className)) = .valueError
    · rw [if_pos hve] at h
      simp at h
    · rw [if_neg hve] at h
      by_cases hrb : (parseValue (w.props (lastPlayedKey className))).lastId
          = some currentId ∧ w.yesno = true
      · rw [if_pos hrb] at h
        injection h with hA hB
        injection hA with hA
        subst hA
        subst hB
        have hrt : replayTaken w currentId className = true := by
          simp [replayTaken, hs, hrb.1, hrb.2]
        rw [hrt]
        refine ⟨by simp [List.countP_cons, Effect.isResolved], ?_⟩
        rw [Bool.or_true, if_pos rfl]
        simp [List.countP_cons, Effect.isResolvedTrueFor]
      · rw [if_neg hrb] at h
        have hrf : replayTaken w currentId className = false := by
          unfold replayTaken
          rw [hs]
          by_cases hA : (parseValue (w.props (lastPlayedKey className))).lastId
              = some currentId
          · have hy : w.yesno = false := by
              cases hyv : w.yesno
              · rfl
              · exact absurd ⟨hA, hyv⟩ hrb
            simp [hy]
          · simp [hA]
        rw [hrf, Bool.or_false]
        split at h
        case _ effs1 heq => simp at h
        case _ path1 effs1 heq =>
          split at h
          case _ v hst =>
            injection h with hA hB
            injection hA with hA
            subst hA
            subst hB
            have hb := playBody_resolved w.play method path1 effs1 heq
            rcases hb with ⟨h1, h2⟩
            constructor
            · simp [List.countP_append, List.countP_cons, Effect.isResolved, h1]
            · by_cases ht : path1.truthy
              · rw [if_pos ht]
                rw [if_pos ht] at h2
                simp [List.countP_append, List.countP_cons,
                  Effect.isResolvedTrueFor, h2]
              · rw [if_neg ht]
                rw [if_neg ht] at h2
                simp [List.countP_append, List.countP_cons,
                  Effect.isResolvedFalseEmpty, h2]
          case _ hst =>
            injection h with hA hB
            injection hA with hA
            subst hA
            subst hB
            exact playBody_resolved w.play method path1 effs1 heq

/-- A concrete replay world to instantiate the wrapper theorems: the
save-last-result setting off, no available providers. -/
def sampleReplayWorld : ReplayWorld Unit :=
  { play :=
      { providers := []
        searchReply := fun _ => Option.none
        parse := fun _ => Option.none
        resolveReply := fun _ => Option.none
        autoChoose := true
        dialogSelected := 0 }
    saveLastResult := false
    props := fun _ => []
    yesno := false }

/-- Witness for C10 at a concrete world. -/
theorem play_resolved_once_witness :
    ([Effect.notify 30146, Effect.resolved false LItem.empty].countP
        Effect.isResolved = 1) ∧
    (if PyPath.truthy .none || replayTaken sampleReplayWorld [] []
     then [Effect.notify 30146, Effect.resolved false LItem.empty].countP
        (Effect.isResolvedTrueFor .none) = 1
     else [Effect.notify 30146, Effect.resolved false LItem.empty].countP
        Effect.isResolvedFalseEmpty = 1) :=
  play_resolved_once sampleReplayWorld [] [] "m" .none
    [Effect.notify 30146, Effect.resolved false LItem.empty] (by rfl)

/-!
### Library (`lib/library.py`)

The relational store (`library.sqlite`, one table keyed by `(id, type)`),
the placeholder-file tree under the configured library directory, and the
`executebuiltin` log are modelled as explicit state.
-/

/-- The filesystem as the library code observes it: regular files with
contents (later writes shadow earlier ones in lookup order) and
directories. -/
structure FS where
  files : List (String × String)
  dirs : List String
deriving DecidableEq

/-- The content of the file at `p`, if it exists. -/
def FS.lookupFile (fs : FS) (p : String) : Option String := fs.files.lookup p

/-- `os.path.exists` on a file path. -/
def FS.fileExists (fs : FS) (p : String) : Bool := (fs.lookupFile p).isSome

/-- `os.path.isdir`. -/
def FS.isDir (fs : FS) (p : String) : Bool := fs.dirs.contains p

/-- `open(p, "w").write(content)`. -/
def FS.write (fs : FS) (p content : String) : FS :=
  { fs with files := (p, content) :: fs.files }

/-- `os.makedirs` guarded by `os.path.isdir`, the pattern of lines 68-70
and 96-98. -/
def FS.ensureDir (fs : FS) (p : String) : FS :=
  if fs.isDir p then fs else { fs with dirs := p :: fs.dirs }

/-- The settings and constants `Library.__init__` (lines 20-44) captures
once at construction: the add-on id, the configured library path and the
three boolean settings. -/
structure Config where
  addonId : String
  libraryPath : String
  addUnaired : Bool
  addSpecials : Bool
  updateKodi : Bool
deriving DecidableEq

/-- `self._movies_directory` (line 28), with `os.path.join` modelled as
`"/"`-joining. -/
def Config.moviesDirectory (c : Config) : String := c.libraryPath ++ "/Movies"

/-- `self._shows_directory` (line 29). -/
def Config.showsDirectory (c : Config) : String := c.libraryPath ++ "/TV Shows"

/-- The mutable state a `Library` instance acts on: the rows of the
`library` table (in insertion order), the filesystem, and the log of
`executebuiltin` calls. -/
structure LibState where
  table : List (Int × String × String)
  fs : FS
  builtins : List String
deriving DecidableEq

/-- Embeds `_storage_get_path` (lines 49-53): the path column of the row
with this id and type. -/
def storage_get_path (table : List (Int × String × String)) (itemId : Int)
    (ty : String) : Option String :=
  (table.find? fun r => r.1 == itemId && r.2.1 == ty).map fun r => r.2.2

/-- Modelled from the spec: an episode metadata record (`lib/tmdb.py` is
not under `src/`) with the fields `_add_show` reads; `aired` is the parsed
air date on a comparable time axis, `none` when falsy. -/
structure EpisodeInfo where
  showId : Int
  seasonNumber : Int
  episodeNumber : Int
  aired : Option Int
deriving DecidableEq

/-- Modelled from the spec: a season record as listed by `item.seasons()`;
`premiered` as in `EpisodeInfo.aired`. -/
structure SeasonInfo where
  seasonNumber : Int
  premiered : Option Int
deriving DecidableEq

/-- Modelled from the spec: a movie metadata record with the fields
`add_movie` reads; `year = some y` is a truthy year already rendered by
`"{}".format`, `none` a falsy one. -/
structure MovieItem where
  movieId : Int
  originalTitle : String
  year : Option String
deriving DecidableEq

/-- Modelled from the spec: the metadata of a show (title, year, season
list). -/
structure ShowData where
  originalTitle : String
  year : Option String
  seasons : List SeasonInfo
deriving DecidableEq

/-- A show item: its TMDB id plus its metadata. -/
structure ShowItem where
  showId : Int
  data : ShowData
deriving DecidableEq

/-- Modelled from the spec: the host world the library code consults —
TMDB lookups (`Season(show_id, n).episodes()`, `Show(id)`, the `Discover`
pages; `lib/tmdb.py` is not under `src/`), the string sanitizer
`make_legal_name` (`lib/api/flix/utils`, not under `src/`) kept abstract,
and `datetime.now()` on the same time axis as the air dates. -/
structure World where
  episodes : Int → Int → List EpisodeInfo
  showData : Int → ShowData
  discoverMovies : Nat → List MovieItem
  discoverShows : Nat → List ShowItem
  legal : String → String
  now : Int

/-- The legal name built at lines 82-86 and 126-130: the original title,
with `" (<year>)"` appended when the year is truthy, passed through
`make_legal_name`. -/
def itemName (legal : String → String) (title : String)
    (year : Option String) : String :=
  legal (title ++ (match year with
    | some y => " (" ++ y ++ ")"
    | Option.none => ""))

/-- Python `"{:02d}".format(n)`. -/
def pad2 (n : Int) : String :=
  if 0 ≤ n ∧ n < 10 then "0" ++ toString n else toString n

/-- The movie placeholder content written at line 75. -/
def movieFileContent (addonId : String) (movieId : Int) : String :=
  "plugin://" ++ addonId ++ "/providers/play_movie/" ++ toString movieId

/-- The episode placeholder content written at lines 118-119. -/
def episodeFileContent (addonId : String) (e : EpisodeInfo) : String :=
  "plugin://" ++ addonId ++ "/providers/play_episode/" ++ toString e.showId
    ++ "/" ++ toString e.seasonNumber ++ "/" ++ toString e.episodeNumber

/-- The movie placeholder path `<movies dir>/<name>/<name>.strm`
(lines 68-72). -/
def movieFilePath (c : Config) (name : String) : String :=
  c.moviesDirectory ++ "/" ++ name ++ "/" ++ name ++ ".strm"

/-- The episode placeholder path
`<shows dir>/<name>/<name> SxxEyy.strm` (lines 114-115). -/
def episodeFilePath (c : Config) (name : String) (e : EpisodeInfo) : String :=
  c.showsDirectory ++ "/" ++ name ++ "/" ++ name ++ " S"
    ++ pad2 e.seasonNumber ++ "E" ++ pad2 e.episodeNumber ++ ".strm"

/-- Embeds `Library._add_movie` (lines 67-75): ensure the movie directory,
then write the `.strm` placeholder unless it exists and overriding is
off. -/
def addMovieFiles (c : Config) (movieId : Int) (name : String)
    (overrideIfExists : Bool) (fs : FS) : FS :=
  let fs1 := fs.ensureDir (c.moviesDirectory ++ "/" ++ name)
  if overrideIfExists || !fs1.fileExists (movieFilePath c name) then
    fs1.write (movieFilePath c name) (movieFileContent c.addonId movieId)
  else fs1

/-- The air-date test of lines 104-107 and 109-112: skip when unaired
episodes are not added and the date is missing (falsy) or lies in the
future. -/
def unairedSkip (addUnaired : Bool) (now : Int) (airDate : Option Int) : Bool :=
  !addUnaired && (match airDate with
    | Option.none => true
    | some d => now < d)

/-- The body of the episode loop of `_add_show` (lines 108-119). -/
def episodeStep (c : Config) (w : World) (name : String)
    (overrideIfExists : Bool) (acc : FS) (e : EpisodeInfo) : FS :=
  if unairedSkip c.addUnaired w.now e.aired then acc
  else if overrideIfExists || !acc.fileExists (episodeFilePath c name e) then
    acc.write (episodeFilePath c name e) (episodeFileContent c.addonId e)
  else acc

/-- The body of the season loop of `_add_show` (lines 101-119): skip
specials unless configured, skip unaired seasons, then write the season's
episodes. -/
def seasonStep (c : Config) (w : World) (showId : Int) (name : String)
    (overrideIfExists : Bool) (acc : FS) (season : SeasonInfo) : FS :=
  if !c.addSpecials && season.seasonNumber == 0 then acc
  else if unairedSkip c.addUnaired w.now season.premiered then acc
  else (w.episodes showId season.seasonNumber).foldl
    (episodeStep c w name overrideIfExists) acc

/-- Embeds `Library._add_show` (lines 95-119). -/
def addShowFiles (c : Config) (w : World) (item : ShowItem) (name : String)
    (overrideIfExists : Bool) (fs : FS) : FS :=
  item.data.seasons.foldl (seasonStep c w item.showId name overrideIfExists)
    (fs.ensureDir (c.showsDirectory ++ "/" ++ name))

/-- Embeds the static `Library.update_kodi_library` (lines 173-178): the
command string handed to `executebuiltin`. -/
def update_kodi_library (path : Option String) : String :=
  "UpdateLibrary(" ++ String.intercalate "," ("video" :: path.toList) ++ ")"

/-- Embeds `Library.add_movie` (lines 77-93) as a state transformer
returning the Python return value: refuse a duplicate `(id, "movie")` key;
otherwise write the placeholder, insert one row, and trigger the movie
library scan when the setting captured at construction is on. -/
def add_movie (c : Config) (w : World) (item : MovieItem) (s : LibState) :
    Bool × LibState :=
  if (storage_get_path s.table item.movieId "movie").isSome then (false, s)
  else
    (true,
     { table := s.table ++ [(item.movieId, "movie",
         itemName w.legal item.originalTitle item.year)]
       fs := addMovieFiles c item.movieId
         (itemName w.legal item.originalTitle item.year) true s.fs
       builtins := s.builtins ++ (if c.updateKodi
         then [update_kodi_library (some c.moviesDirectory)] else []) })

/-- Embeds `Library.add_show` (lines 121-137), analogously. -/
def add_show (c : Config) (w : World) (item : ShowItem) (s : LibState) :
    Bool × LibState :=
  if (storage_get_path s.table item.showId "show").isSome then (false, s)
  else
    (true,
     { table := s.table ++ [(item.showId, "show",
         itemName w.legal item.data.originalTitle item.data.year)]
       fs := addShowFiles c w item
         (itemName w.legal item.data.originalTitle item.data.year) true s.fs
       builtins := s.builtins ++ (if c.updateKodi
         then [update_kodi_library (some c.showsDirectory)] else []) })

/-- Embeds `Library.rebuild` (lines 139-150): regenerate (overriding) the
files of every stored row, then trigger both scans when configured. -/
def rebuild (c : Config) (w : World) (s : LibState) : LibState :=
  { table := s.table
    fs := s.table.foldl (fun fs r =>
      if r.2.1 == "movie" then addMovieFiles c r.1 r.2.2 true fs
      else if r.2.1 == "show" then
        addShowFiles c w ⟨r.1, w.showData r.1⟩ r.2.2 true fs
      else fs) s.fs
    builtins := s.builtins ++ (if c.updateKodi
      then [update_kodi_library (some c.moviesDirectory),
            update_kodi_library (some c.showsDirectory)] else []) }

/-- Embeds `Library.update_library` (lines 152-157): regenerate, without
overriding, the episode files of every stored show row, then trigger the
shows scan when configured. -/
def update_library (c : Config) (w : World) (s : LibState) : LibState :=
  { table := s.table
    fs := (s.table.filter fun r => r.2.1 == "show").foldl
      (fun fs r => addShowFiles c w ⟨r.1, w.showData r.1⟩ r.2.2 false fs) s.fs
    builtins := s.builtins ++ (if c.updateKodi
      then [update_kodi_library (some c.showsDirectory)] else []) }

/-- The page loop of `discover_contents` (lines 159-168): `add_movie` then
`add_show` for every discovered item of pages `1..pages`, without the final
scan trigger. -/
def discoverAdds (c : Config) (w : World) (pages : Nat) (s : LibState) :
    LibState :=
  (List.range' 1 pages).foldl (fun st page =>
    (w.discoverShows page).foldl (fun st2 sh => (add_show c w sh st2).2)
      ((w.discoverMovies page).foldl (fun st2 m => (add_movie c w m st2).2) st))
    s

/-- Embeds `Library.discover_contents` (lines 159-171). -/
def discover_contents (c : Config) (w : World) (pages : Nat) (s : LibState) :
    LibState :=
  { discoverAdds c w pages s with
    builtins := (discoverAdds c w pages s).builtins ++ (if c.updateKodi
      then [update_kodi_library (some c.moviesDirectory),
            update_kodi_library (some c.showsDirectory)] else []) }

/-- The PRIMARY KEY `(id, type)` constraint of the `library` table
(lines 38-44). -/
def uniqueKeys (table : List (Int × String × String)) : Prop :=
  (table.map fun r => (r.1, r.2.1)).Nodup

/-- A sequence of library mutations through `add_movie` / `add_show`. -/
inductive LibOp where
  | movieAdd (item : MovieItem)
  | showAdd (item : ShowItem)

/-- One `add_movie`/`add_show` call, keeping only the state. -/
def applyOp (c : Config) (w : World) (s : LibState) : LibOp → LibState
  | .movieAdd item => (add_movie c w item s).2
  | .showAdd item => (add_show c w item s).2

/-- A sequence of `add_movie`/`add_show` calls. -/
def applyOps (c : Config) (w : World) : List LibOp → LibState → LibState
  | [], s => s
  | op :: ops, s => applyOps c w ops (applyOp c w s op)

theorem storage_get_path_none_notMem {table : List (Int × String × String)}
    {itemId : Int} {ty : String}
    (h : storage_get_path table itemId ty = Option.none) :
    (itemId, ty) ∉ table.map fun r => (r.1, r.2.1) := by
  intro hmem
  rcases List.mem_map.mp hmem with ⟨r, hr, hkey⟩
  have hnone : table.find? (fun r => r.1 == itemId && r.2.1 == ty)
      = Option.none := by
    unfold storage_get_path at h
    exact Option.map_eq_none'.mp h
  have hfind := List.find?_eq_none.mp hnone r hr
  apply hfind
  have h1 : r.1 = itemId := congrArg Prod.fst hkey
  have h2 : r.2.1 = ty := congrArg Prod.snd hkey
  simp [h1, h2]

theorem uniqueKeys_append {table : List (Int × String × String)}
    (row : Int × String × String) (hu : uniqueKeys table)
    (h : storage_get_path table row.1 row.2.1 = Option.none) :
    uniqueKeys (table ++ [row]) := by
  unfold uniqueKeys at hu ⊢
  rw [List.map_append, List.nodup_append]
  refine ⟨hu, List.nodup_singleton _, ?_⟩
  intro a ha hb
  simp only [List.map_cons, List.map_nil, List.mem_singleton] at hb
  subst hb
  exact storage_get_path_none_notMem h ha

theorem add_movie_uniqueKeys (c : Config) (w : World) (item : MovieItem)
    {s : LibState} (hu : uniqueKeys s.table) :
    uniqueKeys ((add_movie c w item s).2.table) := by
  unfold add_movie
  cases h : storage_get_path s.table item.movieId "movie" with
  | some v => simpa [h] using hu
  | none =>
    simp only [h, Option.isSome_none, Bool.false_eq_true, if_false]
    exact uniqueKeys_append _ hu h

theorem add_show_uniqueKeys (c : Config) (w : World) (item : ShowItem)
    {s : LibState} (hu : uniqueKeys s.table) :
    uniqueKeys ((add_show c w item s).2.table) := by
  unfold add_show
  cases h : storage_get_path s.table item.showId "show" with
  | some v => simpa [h] using hu
  | none =>
    simp only [h, Option.isSome_none, Bool.false_eq_true, if_false]
    exact uniqueKeys_append _ hu h

theorem applyOps_uniqueKeys (c : Config) (w : World) (ops : List LibOp)
    (s : LibState) (hu : uniqueKeys s.table) :
    uniqueKeys ((applyOps c w ops s).table) := by
  induction ops generalizing s with
  | nil => exact hu
  | cons op rest ih =>
    cases op with
    | movieAdd item => exact ih _ (add_movie_uniqueKeys c w item hu)
    | showAdd item => exact ih _ (add_show_uniqueKeys c w item hu)

theorem FS.lookupFile_write (fs : FS) (p q content : String) :
    (fs.write q content).lookupFile p
      = if p == q then some content else fs.lookupFile p := by
  simp only [FS.write, FS.lookupFile, List.lookup]
  cases h : p == q <;> simp [h]

theorem FS.fileExists_write_self (fs : FS) (p content : String) :
    (fs.write p content).fileExists p = true := by
  simp [FS.fileExists, FS.lookupFile_write]

theorem FS.lookupFile_ensureDir (fs : FS) (d p : String) :
    (fs.ensureDir d).lookupFile p = fs.lookupFile p := by
  unfold FS.ensureDir
  split <;> rfl

theorem FS.fileExists_write_mono (fs : FS) (p q content : String)
    (h : fs.fileExists p = true) :
    (fs.write q content).fileExists p = true := by
  unfold FS.fileExists at h ⊢
  rw [FS.lookupFile_write]
  by_cases hpq : (p == q) = true
  · rw [if_pos hpq]
    rfl
  · rw [if_neg (by simpa using hpq)]
    exact h

theorem episodeStep_mono (c : Config) (w : World) (name : String) (ov : Bool)
    (acc : FS) (e : EpisodeInfo) (p : String) (h : acc.fileExists p = true) :
    (episodeStep c w name ov acc e).fileExists p = true := by
  unfold episodeStep
  by_cases h1 : unairedSkip c.addUnaired w.now e.aired = true
  · rw [if_pos h1]
    exact h
  · rw [if_neg h1]
    by_cases h2 : (ov || !acc.fileExists (episodeFilePath c name e)) = true
    · rw [if_pos h2]
      exact FS.fileExists_write_mono acc p _ _ h
    · rw [if_neg h2]
      exact h

theorem foldl_episodeStep_mono (c : Config) (w : World) (name : String)
    (ov : Bool) (es : List EpisodeInfo) (acc : FS) (p : String)
    (h : acc.fileExists p = true) :
    (es.foldl (episodeStep c w name ov) acc).fileExists p = true := by
  induction es generalizing acc with
  | nil => exact h
  | cons e rest ih =>
    exact ih _ (episodeStep_mono c w name ov acc e p h)

theorem episodeStep_writes (c : Config) (w : World) (name : String)
    (ov : Bool) (acc : FS) (e : EpisodeInfo)
    (hskip : unairedSkip c.addUnaired w.now e.aired = false) :
    (episodeStep c w name ov acc e).fileExists (episodeFilePath c name e)
      = true := by
  unfold episodeStep
  rw [if_neg (by simp [hskip])]
  by_cases h2 : (ov || !acc.fileExists (episodeFilePath c name e)) = true
  · rw [if_pos h2]
    exact FS.fileExists_write_self acc _ _
  · rw [if_neg h2]
    simp only [Bool.or_eq_true, not_or, Bool.not_eq_true] at h2
    simpa using h2.2

theorem foldl_episodeStep_writes (c : Config) (w : World) (name : String)
    (ov : Bool) (e : EpisodeInfo)
    (hskip : unairedSkip c.addUnaired w.now e.aired = false) :
    ∀ es : List EpisodeInfo, e ∈ es → ∀ acc : FS,
      (es.foldl (episodeStep c w name ov) acc).fileExists
        (episodeFilePath c name e) = true := by
  intro es
  induction es with
  | nil =>
    intro he
    cases he
  | cons e0 rest ih =>
    intro he acc
    rcases List.mem_cons.mp he with heq | hmem
    · subst heq
      exact foldl_episodeStep_mono c w name ov rest _ _
        (episodeStep_writes c w name ov acc e hskip)
    · exact ih hmem _

theorem seasonStep_mono (c : Config) (w : World) (showId : Int)
    (name : String) (ov : Bool) (acc : FS) (season : SeasonInfo) (p : String)
    (h : acc.fileExists p = true) :
    (seasonStep c w showId name ov acc season).fileExists p = true := by
  unfold seasonStep
  by_cases h1 : (!c.addSpecials && season.seasonNumber == 0) = true
  · rw [if_pos h1]
    exact h
  · rw [if_neg h1]
    by_cases h2 : unairedSkip c.addUnaired w.now season.premiered = true
    · rw [if_pos h2]
      exact h
    · rw [if_neg h2]
      exact foldl_episodeStep_mono c w name ov _ acc p h

theorem foldl_seasonStep_mono (c : Config) (w : World) (showId : Int)
    (name : String) (ov : Bool) (seasons : List SeasonInfo) (acc : FS)
    (p : String) (h : acc.fileExists p = true) :
    (seasons.foldl (seasonStep c w showId name ov) acc).fileExists p
      = true := by
  induction seasons generalizing acc with
  | nil => exact h
  | cons season rest ih =>
    exact ih _ (seasonStep_mono c w showId name ov acc season p h)

theorem foldl_seasonStep_writes (c : Config) (w : World) (showId : Int)
    (name : String) (ov : Bool) (season : SeasonInfo) (e : EpisodeInfo)
    (hsp : (!c.addSpecials && season.seasonNumber == 0) = false)
    (hsk : unairedSkip c.addUnaired w.now season.premiered = false)
    (he : e ∈ w.episodes showId season.seasonNumber)
    (hesk : unairedSkip c.addUnaired w.now e.aired = false) :
    ∀ seasons : List SeasonInfo, season ∈ seasons → ∀ acc : FS,
      (seasons.foldl (seasonStep c w showId name ov) acc).fileExists
        (episodeFilePath c name e) = true := by
  intro seasons
  induction seasons with
  | nil =>
    intro hm
    cases hm
  | cons s0 rest ih =>
    intro hm acc
    rcases List.mem_cons.mp hm with heq | hmem
    · subst heq
      refine foldl_seasonStep_mono c w showId name ov rest _ _ ?_
      unfold seasonStep
      rw [if_neg (by simp [hsp]), if_neg (by simp [hsk])]
      exact foldl_episodeStep_writes c w name ov e hesk _ he acc
    · exact ih hmem _

theorem addShowFiles_writes (c : Config) (w : World) (t : ShowItem)
    (name : String) (ov : Bool) (season : SeasonInfo) (e : EpisodeInfo)
    (hseason : season ∈ t.data.seasons)
    (hsp : (!c.addSpecials && season.seasonNumber == 0) = false)
    (hsk : unairedSkip c.addUnaired w.now season.premiered = false)
    (he : e ∈ w.episodes t.showId season.seasonNumber)
    (hesk : unairedSkip c.addUnaired w.now e.aired = false) (fs : FS) :
    (addShowFiles c w t name ov fs).fileExists (episodeFilePath c name e)
      = true := by
  unfold addShowFiles
  exact foldl_seasonStep_writes c w t.showId name ov season e hsp hsk he hesk
    t.data.seasons hseason _

/-- C5: the library store holds at most one row per `(id, type)` key —
any sequence of `add_movie`/`add_show` calls preserves key uniqueness;
adding an already-recorded item returns `False` and leaves the state (store
and filesystem alike) unchanged; adding a new item returns `True`, inserts
exactly one row `(id, type, legal name)` and writes its placeholder
file(s): the movie `.strm`, and for a show the `.strm` of every episode
the season/episode loops of `_add_show` do not skip. -/
theorem library_store_unique (c : Config) (w : World) (s : LibState)
    (ops : List LibOp) (m : MovieItem) (t : ShowItem) (season : SeasonInfo)
    (e : EpisodeInfo) (hu : uniqueKeys s.table) :
    uniqueKeys ((applyOps c w ops s).table) ∧
    ((storage_get_path s.table m.movieId "movie").isSome = true →
      add_movie c w m s = (false, s)) ∧
    (storage_get_path s.table m.movieId "movie" = Option.none →
      (add_movie c w m s).1 = true ∧
      (add_movie c w m s).2.table = s.table
        ++ [(m.movieId, "movie", itemName w.legal m.originalTitle m.year)] ∧
      (add_movie c w m s).2.fs.fileExists
        (movieFilePath c (itemName w.legal m.originalTitle m.year)) = true) ∧
    ((storage_get_path s.table t.showId "show").isSome = true →
      add_show c w t s = (false, s)) ∧
    (storage_get_path s.table t.showId "show" = Option.none →
      (add_show c w t s).1 = true ∧
      (add_show c w t s).2.table = s.table
        ++ [(t.showId, "show",
            itemName w.legal t.data.originalTitle t.data.year)] ∧
      (season ∈ t.data.seasons →
        (!c.addSpecials && season.seasonNumber == 0) = false →
        unairedSkip c.addUnaired w.now season.premiered = false →
        e ∈ w.episodes t.showId season.seasonNumber →
        unairedSkip c.addUnaired w.now e.aired = false →
        (add_show c w t s).2.fs.fileExists
          (episodeFilePath c
            (itemName w.legal t.data.originalTitle t.data.year) e)
          = true)) := by
  refine ⟨applyOps_uniqueKeys c w ops s hu, ?_, ?_, ?_, ?_⟩
  · intro h
    unfold add_movie
    rw [if_pos h]
  · intro h
    unfold add_movie
    simp only [h, Option.isSome_none, Bool.false_eq_true, if_false]
    refine ⟨trivial, trivial, ?_⟩
    unfold addMovieFiles
    simp only [Bool.true_or, if_true]
    exact FS.fileExists_write_self _ _ _
  · intro h
    unfold add_show
    rw [if_pos h]
  · intro h
    unfold add_show
    simp only [h, Option.isSome_none, Bool.false_eq_true, if_false]
    refine ⟨trivial, trivial, ?_⟩
    intro hseason hsp hsk he hesk
    exact addShowFiles_writes c w t _ true season e hseason hsp hsk he hesk
      s.fs

/-- A concrete configuration for the library witnesses. -/
def sampleConfig : Config :=
  { addonId := "plugin.video.flix"
    libraryPath := "/lib"
    addUnaired := true
    addSpecials := true
    updateKodi := true }

/-- A concrete host world for the library witnesses. -/
def sampleWorld : World :=
  { episodes := fun _ _ => [⟨7, 1, 2, some 0⟩]
    showData := fun _ => ⟨"S", Option.none, [⟨1, some 0⟩]⟩
    discoverMovies := fun _ => []
    discoverShows := fun _ => []
    legal := fun n => n
    now := 100 }

/-- The empty library state. -/
def emptyState : LibState := ⟨[], ⟨[], []⟩, []⟩

/-- Witness for C5 at a concrete state: one duplicate-free add sequence,
one fresh movie and one fresh show with a single aired episode. -/
theorem library_store_unique_witness :
    uniqueKeys ((applyOps sampleConfig sampleWorld
        [LibOp.movieAdd ⟨1, "M", Option.none⟩] emptyState).table) ∧
    ((storage_get_path emptyState.table (1 : Int) "movie").isSome = true →
      add_movie sampleConfig sampleWorld ⟨1, "M", Option.none⟩ emptyState
        = (false, emptyState)) ∧
    (storage_get_path emptyState.table (1 : Int) "movie" = Option.none →
      (add_movie sampleConfig sampleWorld ⟨1, "M", Option.none⟩ emptyState).1
        = true ∧
      (add_movie sampleConfig sampleWorld ⟨1, "M", Option.none⟩
          emptyState).2.table
        = emptyState.table ++ [((1 : Int), "movie",
            itemName sampleWorld.legal "M" Option.none)] ∧
      (add_movie sampleConfig sampleWorld ⟨1, "M", Option.none⟩
          emptyState).2.fs.fileExists
        (movieFilePath sampleConfig
          (itemName sampleWorld.legal "M" Option.none)) = true) ∧
    ((storage_get_path emptyState.table (2 : Int) "show").isSome = true →
      add_show sampleConfig sampleWorld ⟨2, ⟨"S", Option.none, [⟨1, some 0⟩]⟩⟩
        emptyState = (false, emptyState)) ∧
    (storage_get_path emptyState.table (2 : Int) "show" = Option.none →
      (add_show sampleConfig sampleWorld ⟨2, ⟨"S", Option.none, [⟨1, some 0⟩]⟩⟩
          emptyState).1 = true ∧
      (add_show sampleConfig sampleWorld ⟨2, ⟨"S", Option.none, [⟨1, some 0⟩]⟩⟩
          emptyState).2.table
        = emptyState.table ++ [((2 : Int), "show",
            itemName sampleWorld.legal "S" Option.none)] ∧
      ((⟨1, some 0⟩ : SeasonInfo)
          ∈ (⟨"S", Option.none, [⟨1, some 0⟩]⟩ : ShowData).seasons →
        (!sampleConfig.addSpecials
          && (⟨1, some 0⟩ : SeasonInfo).seasonNumber == 0) = false →
        unairedSkip sampleConfig.addUnaired sampleWorld.now
          (⟨1, some 0⟩ : SeasonInfo).premiered = false →
        (⟨7, 1, 2, some 0⟩ : EpisodeInfo) ∈ sampleWorld.episodes 2 1 →
        unairedSkip sampleConfig.addUnaired sampleWorld.now
          (⟨7, 1, 2, some 0⟩ : EpisodeInfo).aired = false →
        (add_show sampleConfig sampleWorld
            ⟨2, ⟨"S", Option.none, [⟨1, some 0⟩]⟩⟩ emptyState).2.fs.fileExists
          (episodeFilePath sampleConfig
            (itemName sampleWorld.legal "S" Option.none) ⟨7, 1, 2, some 0⟩)
          = true)) :=
  library_store_unique sampleConfig sampleWorld emptyState
    [LibOp.movieAdd ⟨1, "M", Option.none⟩] ⟨1, "M", Option.none⟩
    ⟨2, ⟨"S", Option.none, [⟨1, some 0⟩]⟩⟩ ⟨1, some 0⟩ ⟨7, 1, 2, some 0⟩
    (by simp [uniqueKeys, emptyState])

/-- C6: for every newly added movie, the placeholder file sits at
`<library>/Movies/<name>/<name>.strm` — `<name>` being the original title,
with `" (<year>)"` appended when a year is known, made legal — and its
entire content is exactly
`plugin://<addon id>/providers/play_movie/<movie id>`. -/
theorem movie_placeholder (c : Config) (w : World) (item : MovieItem)
    (s : LibState) (y : String)
    (hnew : storage_get_path s.table item.movieId "movie" = Option.none) :
    (add_movie c w item s).2.fs.lookupFile
        (movieFilePath c (itemName w.legal item.originalTitle item.year))
      = some (movieFileContent c.addonId item.movieId) ∧
    movieFilePath c (itemName w.legal item.originalTitle item.year)
      = c.libraryPath ++ "/Movies" ++ "/"
        ++ itemName w.legal item.originalTitle item.year ++ "/"
        ++ itemName w.legal item.originalTitle item.year ++ ".strm" ∧
    movieFileContent c.addonId item.movieId
      = "plugin://" ++ c.addonId ++ "/providers/play_movie/"
        ++ toString item.movieId ∧
    itemName w.legal item.originalTitle (some y)
      = w.legal (item.originalTitle ++ (" (" ++ y ++ ")")) ∧
    itemName w.legal item.originalTitle Option.none
      = w.legal (item.originalTitle ++ "") := by
  refine ⟨?_, rfl, rfl, rfl, rfl⟩
  unfold add_movie
  simp only [hnew, Option.isSome_none, Bool.false_eq_true, if_false]
  unfold addMovieFiles
  simp only [Bool.true_or, if_true]
  rw [FS.lookupFile_write]
  simp

/-- Witness for C6 at a concrete movie with a known year. -/
theorem movie_placeholder_witness :
    (add_movie sampleConfig sampleWorld ⟨3, "T", some "2001"⟩
        emptyState).2.fs.lookupFile
        (movieFilePath sampleConfig
          (itemName sampleWorld.legal "T" (some "2001")))
      = some (movieFileContent sampleConfig.addonId 3) ∧
    movieFilePath sampleConfig (itemName sampleWorld.legal "T" (some "2001"))
      = sampleConfig.libraryPath ++ "/Movies" ++ "/"
        ++ itemName sampleWorld.legal "T" (some "2001") ++ "/"
        ++ itemName sampleWorld.legal "T" (some "2001") ++ ".strm" ∧
    movieFileContent sampleConfig.addonId 3
      = "plugin://" ++ sampleConfig.addonId ++ "/providers/play_movie/"
        ++ toString (3 : Int) ∧
    itemName sampleWorld.legal "T" (some "2001")
      = sampleWorld.legal ("T" ++ (" (" ++ "2001" ++ ")")) ∧
    itemName sampleWorld.legal "T" Option.none
      = sampleWorld.legal ("T" ++ "") :=
  movie_placeholder sampleConfig sampleWorld ⟨3, "T", some "2001"⟩ emptyState
    "2001" (by rfl)

theorem episodeStep_preserve (c : Config) (w : World) (name : String)
    (acc : FS) (e : EpisodeInfo) (p v : String)
    (h : acc.lookupFile p = some v) :
    (episodeStep c w name false acc e).lookupFile p = some v := by
  unfold episodeStep
  by_cases h1 : unairedSkip c.addUnaired w.now e.aired = true
  · rw [if_pos h1]
    exact h
  · rw [if_neg h1]
    by_cases h2 : (false || !acc.fileExists (episodeFilePath c name e)) = true
    · rw [if_pos h2]
      rw [FS.lookupFile_write]
      by_cases hpq : p = episodeFilePath c name e
      · exfalso
        have hx : acc.fileExists (episodeFilePath c name e) = false := by
          simpa using h2
        rw [hpq] at h
        rw [FS.fileExists, h] at hx
        simp at hx
      · rw [if_neg (by simpa using hpq)]
        exact h
    · rw [if_neg h2]
      exact h

theorem foldl_episodeStep_preserve (c : Config) (w : World) (name : String)
    (es : List EpisodeInfo) (acc : FS) (p v : String)
    (h : acc.lookupFile p = some v) :
    (es.foldl (episodeStep c w name false) acc).lookupFile p = some v := by
  induction es generalizing acc with
  | nil => exact h
  | cons e rest ih =>
    exact ih _ (episodeStep_preserve c w name acc e p v h)

theorem seasonStep_preserve (c : Config) (w : World) (showId : Int)
    (name : String) (acc : FS) (season : SeasonInfo) (p v : String)
    (h : acc.lookupFile p = some v) :
    (seasonStep c w showId name false acc season).lookupFile p = some v := by
  unfold seasonStep
  by_cases h1 : (!c.addSpecials && season.seasonNumber == 0) = true
  · rw [if_pos h1]
    exact h
  · rw [if_neg h1]
    by_cases h2 : unairedSkip c.addUnaired w.now season.premiered = true
    · rw [if_pos h2]
      exact h
    · rw [if_neg h2]
      exact foldl_episodeStep_preserve c w name _ acc p v h

theorem foldl_seasonStep_preserve (c : Config) (w : World) (showId : Int)
    (name : String) (seasons : List SeasonInfo) (acc : FS) (p v : String)
    (h : acc.lookupFile p = some v) :
    (seasons.foldl (seasonStep c w showId name false) acc).lookupFile p
      = some v := by
  induction seasons generalizing acc with
  | nil => exact h
  | cons season rest ih =>
    exact ih _ (seasonStep_preserve c w showId name acc season p v h)

theorem addShowFiles_preserve (c : Config) (w : World) (item : ShowItem)
    (name : String) (fs : FS) (p v : String)
    (h : fs.lookupFile p = some v) :
    (addShowFiles c w item name false fs).lookupFile p = some v := by
  unfold addShowFiles
  refine foldl_seasonStep_preserve c w item.showId name item.data.seasons _
    p v ?_
  rw [FS.lookupFile_ensureDir]
  exact h

theorem update_library_fold_preserve (c : Config) (w : World)
    (rows : List (Int × String × String)) (fs : FS) (p v : String)
    (h : fs.lookupFile p = some v) :
    (rows.foldl (fun fs r =>
        addShowFiles c w ⟨r.1, w.showData r.1⟩ r.2.2 false fs) fs).lookupFile p
      = some v := by
  induction rows generalizing fs with
  | nil => exact h
  | cons r rest ih =>
    exact ih _ (addShowFiles_preserve c w ⟨r.1, w.showData r.1⟩ r.2.2 fs p v h)

/-- Whether `p` is an episode placeholder path of one of the given seasons
of the show named `name`. -/
def isEpisodePathFor (c : Config) (w : World) (showId : Int) (name : String)
    (seasons : List SeasonInfo) (p : String) : Bool :=
  seasons.any fun season =>
    (w.episodes showId season.seasonNumber).any fun e =>
      p == episodeFilePath c name e

/-- Whether `p` is an episode placeholder path of a show recorded in the
store (the only files `update_library` may create). -/
def isShowEpisodeFile (c : Config) (w : World)
    (table : List (Int × String × String)) (p : String) : Bool :=
  table.any fun r => r.2.1 == "show" &&
    isEpisodePathFor c w r.1 r.2.2 (w.showData r.1).seasons p

theorem episodeStep_new (c : Config) (w : World) (name : String) (ov : Bool)
    (acc : FS) (e : EpisodeInfo) (p : String)
    (h0 : acc.lookupFile p = Option.none)
    (h1 : (episodeStep c w name ov acc e).lookupFile p ≠ Option.none) :
    (p == episodeFilePath c name e) = true := by
  unfold episodeStep at h1
  by_cases ha : unairedSkip c.addUnaired w.now e.aired = true
  · rw [if_pos ha] at h1
    exact absurd h0 h1
  · rw [if_neg ha] at h1
    by_cases hb : (ov || !acc.fileExists (episodeFilePath c name e)) = true
    · rw [if_pos hb, FS.lookupFile_write] at h1
      by_cases hpq : (p == episodeFilePath c name e) = true
      · exact hpq
      · rw [if_neg (by simpa using hpq)] at h1
        exact absurd h0 h1
    · rw [if_neg hb] at h1
      exact absurd h0 h1

theorem foldl_episodeStep_new (c : Config) (w : World) (name : String)
    (ov : Bool) (es : List EpisodeInfo) (acc : FS) (p : String)
    (h0 : acc.lookupFile p = Option.none)
    (h1 : (es.foldl (episodeStep c w name ov) acc).lookupFile p
      ≠ Option.none) :
    (es.any fun e => p == episodeFilePath c name e) = true := by
  induction es generalizing acc with
  | nil => exact absurd h0 h1
  | cons e rest ih =>
    rw [List.any_cons]
    by_cases hmid : (episodeStep c w name ov acc e).lookupFile p = Option.none
    · rw [ih _ hmid h1]
      simp
    · rw [episodeStep_new c w name ov acc e p h0 hmid]
      simp

theorem seasonStep_new (c : Config) (w : World) (showId : Int)
    (name : String) (ov : Bool) (acc : FS) (season : SeasonInfo) (p : String)
    (h0 : acc.lookupFile p = Option.none)
    (h1 : (seasonStep c w showId name ov acc season).lookupFile p
      ≠ Option.none) :
    ((w.episodes showId season.seasonNumber).any fun e =>
      p == episodeFilePath c name e) = true := by
  unfold seasonStep at h1
  by_cases ha : (!c.addSpecials && season.seasonNumber == 0) = true
  · rw [if_pos ha] at h1
    exact absurd h0 h1
  · rw [if_neg ha] at h1
    by_cases hb : unairedSkip c.addUnaired w.now season.premiered = true
    · rw [if_pos hb] at h1
      exact absurd h0 h1
    · rw [if_neg hb] at h1
      exact foldl_episodeStep_new c w name ov _ acc p h0 h1

theorem foldl_seasonStep_new (c : Config) (w : World) (showId : Int)
    (name : String) (ov : Bool) (seasons : List SeasonInfo) (acc : FS)
    (p : String) (h0 : acc.lookupFile p = Option.none)
    (h1 : (seasons.foldl (seasonStep c w showId name ov) acc).lookupFile p
      ≠ Option.none) :
    isEpisodePathFor c w showId name seasons p = true := by
  unfold isEpisodePathFor
  induction seasons generalizing acc with
  | nil => exact absurd h0 h1
  | cons season rest ih =>
    rw [List.any_cons]
    by_cases hmid : (seasonStep c w showId name ov acc season).lookupFile p
        = Option.none
    · rw [ih _ hmid h1]
      simp
    · rw [seasonStep_new c w showId name ov acc season p h0 hmid]
      simp

theorem addShowFiles_new (c : Config) (w : World) (item : ShowItem)
    (name : String) (ov : Bool) (fs : FS) (p : String)
    (h0 : fs.lookupFile p = Option.none)
    (h1 : (addShowFiles c w item name ov fs).lookupFile p ≠ Option.none) :
    isEpisodePathFor c w item.showId name item.data.seasons p = true := by
  unfold addShowFiles at h1
  refine foldl_seasonStep_new c w item.showId name ov item.data.seasons _ p
    ?_ h1
  rw [FS.lookupFile_ensureDir]
  exact h0

theorem update_library_fold_new (c : Config) (w : World)
    (rows : List (Int × String × String)) (fs : FS) (p : String)
    (h0 : fs.lookupFile p = Option.none)
    (h1 : (rows.foldl (fun fs r =>
        addShowFiles c w ⟨r.1, w.showData r.1⟩ r.2.2 false fs) fs).lookupFile p
      ≠ Option.none) :
    (rows.any fun r =>
      isEpisodePathFor c w r.1 r.2.2 (w.showData r.1).seasons p) = true := by
  induction rows generalizing fs with
  | nil => exact absurd h0 h1
  | cons r rest ih =>
    rw [List.any_cons]
    by_cases hmid : (addShowFiles c w ⟨r.1, w.showData r.1⟩ r.2.2 false
        fs).lookupFile p = Option.none
    · rw [ih _ hmid h1]
      simp
    · rw [addShowFiles_new c w ⟨r.1, w.showData r.1⟩ r.2.2 false fs p h0 hmid]
      simp

theorem any_filter_show (w : World) (c : Config)
    (table : List (Int × String × String)) (p : String) :
    ((table.filter fun r => r.2.1 == "show").any fun r =>
      isEpisodePathFor c w r.1 r.2.2 (w.showData r.1).seasons p)
      = isShowEpisodeFile c w table p := by
  unfold isShowEpisodeFile
  induction table with
  | nil => rfl
  | cons r rest ih =>
    rw [List.filter_cons, List.any_cons]
    by_cases hr : (r.2.1 == "show") = true
    · rw [if_pos hr, List.any_cons, ih, hr]
      simp
    · rw [if_neg (by simpa using hr), ih]
      have : (r.2.1 == "show") = false := by simpa using hr
      rw [this]
      simp

/-- C7: `update_library` leaves the relational store untouched, never
changes the content visible at any pre-existing file path (in particular it
overwrites no existing episode file and leaves every movie file unchanged),
and any path it newly creates is an episode placeholder of a show recorded
in the store. -/
theorem update_library_frame (c : Config) (w : World) (s : LibState)
    (p v : String) :
    (update_library c w s).table = s.table ∧
    (s.fs.lookupFile p = some v →
      (update_library c w s).fs.lookupFile p = some v) ∧
    (s.fs.lookupFile p = Option.none →
      (update_library c w s).fs.lookupFile p ≠ Option.none →
      isShowEpisodeFile c w s.table p = true) := by
  refine ⟨rfl, ?_, ?_⟩
  · intro h
    exact update_library_fold_preserve c w _ s.fs p v h
  · intro h0 h1
    rw [← any_filter_show w c s.table p]
    exact update_library_fold_new c w _ s.fs p h0 h1

/-- Witness for C7: a stored show whose single episode file is created by
the sync. -/
theorem update_library_frame_witness :
    (update_library sampleConfig sampleWorld
        ⟨[(2, "show", "S")], ⟨[("/f", "x")], []⟩, []⟩).table
      = (⟨[(2, "show", "S")], ⟨[("/f", "x")], []⟩, []⟩ : LibState).table ∧
    ((⟨[(2, "show", "S")], ⟨[("/f", "x")], []⟩, []⟩ : LibState).fs.lookupFile
        "/f" = some "x" →
      (update_library sampleConfig sampleWorld
        ⟨[(2, "show", "S")], ⟨[("/f", "x")], []⟩, []⟩).fs.lookupFile "/f"
        = some "x") ∧
    ((⟨[(2, "show", "S")], ⟨[("/f", "x")], []⟩, []⟩ : LibState).fs.lookupFile
        "/f" = Option.none →
      (update_library sampleConfig sampleWorld
        ⟨[(2, "show", "S")], ⟨[("/f", "x")], []⟩, []⟩).fs.lookupFile "/f"
        ≠ Option.none →
      isShowEpisodeFile sampleConfig sampleWorld [(2, "show", "S")] "/f"
        = true) :=
  update_library_frame sampleConfig sampleWorld
    ⟨[(2, "show", "S")], ⟨[("/f", "x")], []⟩, []⟩ "/f" "x"

theorem add_movie_builtins_off (c : Config) (w : World) (m : MovieItem)
    (s : LibState) (hk : c.updateKodi = false) :
    (add_movie c w m s).2.builtins = s.builtins := by
  unfold add_movie
  by_cases h : (storage_get_path s.table m.movieId "movie").isSome = true
  · rw [if_pos h]
  · rw [if_neg h]
    simp [hk]

theorem add_show_builtins_off (c : Config) (w : World) (t : ShowItem)
    (s : LibState) (hk : c.updateKodi = false) :
    (add_show c w t s).2.builtins = s.builtins := by
  unfold add_show
  by_cases h : (storage_get_path s.table t.showId "show").isSome = true
  · rw [if_pos h]
  · rw [if_neg h]
    simp [hk]

theorem foldl_add_movie_builtins_off (c : Config) (w : World)
    (ms : List MovieItem) (s : LibState) (hk : c.updateKodi = false) :
    (ms.foldl (fun st2 m => (add_movie c w m st2).2) s).builtins
      = s.builtins := by
  induction ms generalizing s with
  | nil => rfl
  | cons m rest ih =>
    exact (ih _).trans (add_movie_builtins_off c w m s hk)

theorem foldl_add_show_builtins_off (c : Config) (w : World)
    (ts : List ShowItem) (s : LibState) (hk : c.updateKodi = false) :
    (ts.foldl (fun st2 t => (add_show c w t st2).2) s).builtins
      = s.builtins := by
  induction ts generalizing s with
  | nil => rfl
  | cons t rest ih =>
    exact (ih _).trans (add_show_builtins_off c w t s hk)

theorem discoverAdds_builtins_off (c : Config) (w : World) (pages : Nat)
    (s : LibState) (hk : c.updateKodi = false) :
    (discoverAdds c w pages s).builtins = s.builtins := by
  unfold discoverAdds
  induction (List.range' 1 pages) generalizing s with
  | nil => rfl
  | cons page rest ih =>
    refine (ih _).trans ?_
    exact (foldl_add_show_builtins_off c w _ _ hk).trans
      (foldl_add_movie_builtins_off c w _ _ hk)

/-- C8: the host library-scan trigger is `UpdateLibrary(video,<dir>)` with
the Movies or TV Shows directory (or `UpdateLibrary(video)` with no path),
and it is emitted after a successful `add_movie`/`add_show` and after
`rebuild`/`update_library`/`discover_contents` exactly when the
update-kodi-library setting captured at construction is on; unsuccessful
adds emit nothing, and with the setting off `discover_contents` emits no
trigger at all. -/
theorem kodi_update_trigger (c : Config) (w : World) (s : LibState)
    (m : MovieItem) (t : ShowItem) (pages : Nat) (d : String) :
    update_kodi_library Option.none = "UpdateLibrary(video)" ∧
    update_kodi_library (some d) = "UpdateLibrary(video," ++ d ++ ")" ∧
    ((add_movie c w m s).1 = true →
      (add_movie c w m s).2.builtins = s.builtins ++
        (if c.updateKodi then [update_kodi_library (some c.moviesDirectory)]
         else [])) ∧
    ((add_movie c w m s).1 = false →
      (add_movie c w m s).2.builtins = s.builtins) ∧
    ((add_show c w t s).1 = true →
      (add_show c w t s).2.builtins = s.builtins ++
        (if c.updateKodi then [update_kodi_library (some c.showsDirectory)]
         else [])) ∧
    ((add_show c w t s).1 = false →
      (add_show c w t s).2.builtins = s.builtins) ∧
    ((rebuild c w s).builtins = s.builtins ++
      (if c.updateKodi then [update_kodi_library (some c.moviesDirectory),
        update_kodi_library (some c.showsDirectory)] else [])) ∧
    ((update_library c w s).builtins = s.builtins ++
      (if c.updateKodi then [update_kodi_library (some c.showsDirectory)]
       else [])) ∧
    ((discover_contents c w pages s).builtins
      = (discoverAdds c w pages s).builtins ++
        (if c.updateKodi then [update_kodi_library (some c.moviesDirectory),
          update_kodi_library (some c.showsDirectory)] else [])) ∧
    (c.updateKodi = false →
      (discoverAdds c w pages s).builtins = s.builtins) := by
  refine ⟨rfl, rfl, ?_, ?_, ?_, ?_, rfl, rfl, rfl, ?_⟩
  · intro h
    unfold add_movie at h ⊢
    by_cases hd : (storage_get_path s.table m.movieId "movie").isSome = true
    · rw [if_pos hd] at h
      simp at h
    · rw [if_neg hd]
  · intro h
    unfold add_movie at h ⊢
    by_cases hd : (storage_get_path s.table m.movieId "movie").isSome = true
    · rw [if_pos hd]
    · rw [if_neg hd] at h
      simp at h
  · intro h
    unfold add_show at h ⊢
    by_cases hd : (storage_get_path s.table t.showId "show").isSome = true
    · rw [if_pos hd] at h
      simp at h
    · rw [if_neg hd]
  · intro h
    unfold add_show at h ⊢
    by_cases hd : (storage_get_path s.table t.showId "show").isSome = true
    · rw [if_pos hd]
    · rw [if_neg hd] at h
      simp at h
  · exact discoverAdds_builtins_off c w pages s

/-- Witness for C8 at a concrete library and a successful movie add. -/
theorem kodi_update_trigger_witness :
    update_kodi_library Option.none = "UpdateLibrary(video)" ∧
    update_kodi_library (some "/d") = "UpdateLibrary(video," ++ "/d" ++ ")" ∧
    ((add_movie sampleConfig sampleWorld ⟨1, "M", Option.none⟩ emptyState).1
        = true →
      (add_movie sampleConfig sampleWorld ⟨1, "M", Option.none⟩
          emptyState).2.builtins
        = emptyState.builtins ++
          (if sampleConfig.updateKodi
           then [update_kodi_library (some sampleConfig.moviesDirectory)]
           else [])) ∧
    ((add_movie sampleConfig sampleWorld ⟨1, "M", Option.none⟩ emptyState).1
        = false →
      (add_movie sampleConfig sampleWorld ⟨1, "M", Option.none⟩
          emptyState).2.builtins = emptyState.builtins) ∧
    ((add_show sampleConfig sampleWorld ⟨2, ⟨"S", Option.none, []⟩⟩
          emptyState).1 = true →
      (add_show sampleConfig sampleWorld ⟨2, ⟨"S", Option.none, []⟩⟩
          emptyState).2.builtins
        = emptyState.builtins ++
          (if sampleConfig.updateKodi
           then [update_kodi_library (some sampleConfig.showsDirectory)]
           else [])) ∧
    ((add_show sampleConfig sampleWorld ⟨2, ⟨"S", Option.none, []⟩⟩
          emptyState).1 = false →
      (add_show sampleConfig sampleWorld ⟨2, ⟨"S", Option.none, []⟩⟩
          emptyState).2.builtins = emptyState.builtins) ∧
    ((rebuild sampleConfig sampleWorld emptyState).builtins
      = emptyState.builtins ++
        (if sampleConfig.updateKodi
         then [update_kodi_library (some sampleConfig.moviesDirectory),
           update_kodi_library (some sampleConfig.showsDirectory)]
         else [])) ∧
    ((update_library sampleConfig sampleWorld emptyState).builtins
      = emptyState.builtins ++
        (if sampleConfig.updateKodi
         then [update_kodi_library (some sampleConfig.showsDirectory)]
         else [])) ∧
    ((discover_contents sampleConfig sampleWorld 2 emptyState).builtins
      = (discoverAdds sampleConfig sampleWorld 2 emptyState).builtins ++
        (if sampleConfig.updateKodi
         then [update_kodi_library (some sampleConfig.moviesDirectory),
           update_kodi_library (some sampleConfig.showsDirectory)]
         else [])) ∧
    (sampleConfig.updateKodi = false →
      (discoverAdds sampleConfig sampleWorld 2 emptyState).builtins
        = emptyState.builtins) :=
  kodi_update_trigger sampleConfig sampleWorld emptyState
    ⟨1, "M", Option.none⟩ ⟨2, ⟨"S", Option.none, []⟩⟩ 2 "/d"

end Flix
